import Mathlib

/-!
Verification of the WikiJury contributor-scoring engine
(`src/utils/analysis.py` and the commons branch of `load_data` in
`src/app.py`), as a shallow embedding over lists of rows.

Conventions of the embedding:
* A table (`pandas.DataFrame`) is a `DF`: the list of column names
  together with the list of rows; a row is an association list from
  column name to cell value.
* Cell values are `Val`: a rational number, a text cell, or `null`
  (pandas `NaN`).  Machine floats are modelled by `ℚ`.
* Numeric reads of a text cell behave like a missing value here; in the
  source a text cell inside a numeric column raises during scoring and
  the outer handler of `analyze_contributors` turns that into the empty
  table, a path the theorems below never rely on.
* Timestamps (`enrollment_timestamp`) are modelled in seconds, so
  `pandas.Timedelta.days` is `⌊seconds / 86400⌋`.  A numeric cell is a
  timestamp that parses; a text cell is malformed text, on which
  `pd.to_datetime` raises; a `null` cell is a missing value, which
  `pd.to_datetime` converts to `NaT` silently, without raising.
-/

namespace WikiJury

/-- A cell of an uploaded table: a number, a text cell, or `NaN`. -/
inductive Val where
  | num (q : ℚ)
  | str (s : String)
  | null
deriving DecidableEq

/-- One row of a table: an association list from column name to cell. -/
abbrev Row := List (String × Val)

/-- A `pandas.DataFrame`: column names plus rows. -/
structure DF where
  cols : List String
  rows : List Row
deriving DecidableEq

/-- Read a cell; a column absent from the row reads as `NaN`. -/
def getCell (r : Row) (c : String) : Val := (r.lookup c).getD Val.null

/-- Numeric read of a cell. `none` models `NaN`. -/
def getNum (r : Row) (c : String) : Option ℚ :=
  match getCell r c with
  | .num q => some q
  | _ => none

/-- String read of a cell (used for `username`). -/
def getStr (r : Row) (c : String) : String :=
  match getCell r c with
  | .str s => s
  | _ => ""

/-- `df[source].fillna(0)` when `source` is a column of `df`, else the
scalar default `0` (the `column_mappings` loop in `process_editors_data`
and the ensure-required-columns loop of `analyze_contributors`). -/
def colFill0 (df : DF) (r : Row) (c : String) : ℚ :=
  if c ∈ df.cols then (getNum r c).getD 0 else 0

/-- One row of the canonical contributor-metrics table produced by the
`process_*_data` adapters (after the ensure-required-columns loop of
`analyze_contributors`, which fills any column still missing with `0`).
`username` is `none` for `overview` data, whose metrics table carries no
username column.  `none` in a numeric field models a `NaN` cell.
`wikidata_edits` is the source column `www.wikidata.org_edits`. -/
structure MRow where
  username : Option String
  total_edits : Option ℚ
  articles_created : Option ℚ
  articles_edited : Option ℚ
  bytes_added : Option ℚ
  references_added : Option ℚ
  upload_count : Option ℚ
  wikidata_edits : Option ℚ
deriving DecidableEq

/-- `calculate_article_points` (analysis.py lines 290-300), applied row
by row.  The two `Option` arguments are the row's `articles_created` and
`bytes_added` cells; `none` models `NaN`, for which the Python
comparisons `NaN == 0`, `NaN >= 4000` and `NaN >= 1500` are all false,
so the function returns `0.0`. -/
def calculate_article_points (articles_created bytes_added : Option ℚ) : ℚ :=
  match articles_created with
  | none => 0
  | some ac =>
    if ac = 0 then 0
    else
      match bytes_added with
      | none => 0
      | some b =>
        if b / ac ≥ 4000 then 5 * ac
        else if b / ac ≥ 1500 then 3 * ac
        else 0

end WikiJury

namespace WikiJury

/-- `process_editors_data` (analysis.py lines 174-212): one metrics row
per input row; `username` is copied; each target column is
`df[source].fillna(0)` when the source column exists, else the scalar
`0`.  The source columns are exactly the `column_mappings` dictionary:
`revisions_during_project → total_edits`,
`mainspace_bytes_added → bytes_added`,
`total_articles_created → articles_created`,
`total_articles_edited → articles_edited`, `references_added`,
`upload_count`, `www.wikidata.org_edits`. -/
def process_editors_data (df : DF) : List MRow :=
  df.rows.map fun r =>
    { username := some (getStr r "username")
      total_edits := some (colFill0 df r "revisions_during_project")
      bytes_added := some (colFill0 df r "mainspace_bytes_added")
      articles_created := some (colFill0 df r "total_articles_created")
      articles_edited := some (colFill0 df r "total_articles_edited")
      references_added := some (colFill0 df r "references_added")
      upload_count := some (colFill0 df r "upload_count")
      wikidata_edits := some (colFill0 df r "www.wikidata.org_edits") }

/-- The general metric columns copied by `process_overview_data`. -/
def overviewGeneralMetrics : List String :=
  ["total_edits", "articles_created", "articles_edited", "bytes_added",
   "references_added", "upload_count"]

/-- Does `process_overview_data` copy at least one column?  Wiki-specific
columns are matched by suffix (`*_edits`, `*_articles_created`,
`*_articles_edited`); general metrics by name. -/
def overviewHasData (df : DF) : Bool :=
  df.cols.any fun c =>
    c.endsWith "_edits" || c.endsWith "_articles_created" ||
    c.endsWith "_articles_edited" || overviewGeneralMetrics.contains c

/-- `process_overview_data` (analysis.py lines 214-231): copies matching
columns with `fillna(0)` into a fresh frame.  When no column matches,
the fresh frame has zero rows (assigning scalars to an empty frame adds
zero-row columns); otherwise one row per input row.  The canonical seven
columns are kept here (any still missing is filled with `0` by the
ensure-required-columns loop of `analyze_contributors`);
`www.wikidata.org_edits` is copied via the `*_edits` suffix match.  The
extra wiki-specific passthrough columns take no part in scoring and are
omitted from the embedding.  The metrics table has no username column
(`username := none`). -/
def process_overview_data (df : DF) : List MRow :=
  if overviewHasData df then
    df.rows.map fun r =>
      { username := none
        total_edits := some (colFill0 df r "total_edits")
        bytes_added := some (colFill0 df r "bytes_added")
        articles_created := some (colFill0 df r "articles_created")
        articles_edited := some (colFill0 df r "articles_edited")
        references_added := some (colFill0 df r "references_added")
        upload_count := some (colFill0 df r "upload_count")
        wikidata_edits := some (colFill0 df r "www.wikidata.org_edits") }
  else []

/-- `process_commons_data` (analysis.py lines 233-268): requires a
`username` column, else returns the empty frame.  It copies `username`
row for row (no grouping) and initialises every metric column with the
scalar `0`.  The upload count is only written when a `title` column
exists, and the usage count when a `usage_count` column exists; in both
branches the written value is modelled as `NaN` (`none`): the statement
`metrics.loc[mask, col] = counts` assigns a username-indexed Series to
rows of a RangeIndex-labelled frame, and pandas aligns the Series on the
row labels, none of which occur in its index, producing `NaN`
throughout (`mask` is all-true, every username being a group key). -/
def process_commons_data (df : DF) : List MRow :=
  if "username" ∈ df.cols then
    df.rows.map fun r =>
      { username := some (getStr r "username")
        total_edits := some 0
        bytes_added := some 0
        articles_created := some 0
        articles_edited := if "usage_count" ∈ df.cols then none else some 0
        references_added := some 0
        upload_count := if "title" ∈ df.cols then none else some 0
        wikidata_edits := some 0 }
  else []

/-- Keys of `df.groupby('username')`: the distinct usernames, emitted in
ascending order (pandas groups with `sort=True`). -/
def groupKeys (us : List String) : List String :=
  List.insertionSort (fun a b : String => a ≤ b) us.dedup

/-- Sum of column `c` over rows `grp`, skipping `NaN` cells
(`groupby(...).sum()` treats `NaN` as `0`). -/
def sumCol (grp : List Row) (c : String) : ℚ :=
  (grp.map fun r => (getNum r c).getD 0).sum

/-- `process_articles_data` (analysis.py lines 270-288): empty frame when
`username` is absent; otherwise `groupby('username').agg` summing
`edit_count → total_edits`, `characters_added → bytes_added`,
`references_added`, `new → articles_created`.  The `agg` dictionary
raises `KeyError` when any of its four columns is missing from the
frame (the error is caught by `analyze_contributors`).  The three
canonical columns the aggregation does not produce are `0` after the
ensure-required-columns loop of `analyze_contributors`. -/
def process_articles_data (df : DF) : Except String (List MRow) :=
  if "username" ∉ df.cols then .ok []
  else if ¬ ("edit_count" ∈ df.cols ∧ "characters_added" ∈ df.cols ∧
             "references_added" ∈ df.cols ∧ "new" ∈ df.cols) then
    .error "KeyError"
  else
    .ok ((groupKeys (df.rows.map fun r => getStr r "username")).map fun u =>
      let grp := df.rows.filter fun r => getStr r "username" == u
      { username := some u
        total_edits := some (sumCol grp "edit_count")
        bytes_added := some (sumCol grp "characters_added")
        articles_created := some (sumCol grp "new")
        articles_edited := some 0
        references_added := some (sumCol grp "references_added")
        upload_count := some 0
        wikidata_edits := some 0 })

/-- A scored row: the metric columns plus the four point columns and the
total score (analysis.py lines 351-363).  The point columns are real
rationals (their operands are `fillna(0)`-ed); `score` is nullable
because the time-bonus multiplication can turn it into `NaN` (a `NaT`
enrollment timestamp), the only `NaN` source past this point. -/
structure SRow where
  m : MRow
  article_creation_points : ℚ
  wikidata_points : ℚ
  upload_points : ℚ
  commons_usage_points : ℚ
  score : Option ℚ
deriving DecidableEq

/-- The per-row point computation of `analyze_contributors`
(analysis.py lines 351-363):
`article_creation_points = calculate_article_points(row)`,
`wikidata_points = www.wikidata.org_edits.fillna(0) * 3`,
`upload_points = upload_count.fillna(0) * 3`,
`commons_usage_points = articles_edited.fillna(0)` (1 point per use),
`score = (acp + wp + up + cup).fillna(0)` — the operands being non-`NaN`
rationals here, the final `fillna(0)` is the identity. -/
def scoreRow (r : MRow) : SRow :=
  let acp := calculate_article_points r.articles_created r.bytes_added
  let wp := (r.wikidata_edits.getD 0) * 3
  let up := (r.upload_count.getD 0) * 3
  let cup := r.articles_edited.getD 0
  { m := r
    article_creation_points := acp
    wikidata_points := wp
    upload_points := up
    commons_usage_points := cup
    score := some (acp + wp + up + cup) }

/-- `pandas.Timedelta.days` of a difference of timestamps modelled in
seconds: the floor of the day count. -/
def tsDays (q : ℚ) : ℤ := ⌊q / 86400⌋

/-- `pd.to_datetime` of one `enrollment_timestamp` cell: a numeric cell
parses (to seconds); a text cell is malformed and raises, `.error`, the
exception being caught inside `calculate_time_bonus`; a `NaN` cell is
converted to `NaT` silently — `.ok none` — and does not raise. -/
def parseTs (r : Row) : Except String (Option ℚ) :=
  match getCell r "enrollment_timestamp" with
  | .num q => .ok (some q)
  | .null => .ok none
  | .str _ => .error "ParserError"

/-- The time-bonus multiplier of one row (analysis.py line 169):
`1 + 0.1 * (1 - (t - min).days / range_days)`. -/
def tbMult (mn : ℚ) (range_days : ℤ) (t : ℚ) : ℚ :=
  1 + (1 / 10) * (1 - ((tsDays (t - mn) : ℚ) / (range_days : ℚ)))

/-- The body of `calculate_time_bonus` after `pd.to_datetime` did not
raise (analysis.py lines 166-169).  `tss` is the converted column,
`none` being a `NaT` entry.  `Series.max`/`Series.min` skip `NaT`
(`skipna`), so the day range comes from the present values
(`tss.filterMap id`).  With a positive range the multiplier Series is
computed row-wise: a `NaT` row's `(t - min).dt.days` is `NaN` and its
multiplier is `NaN` (`none`).  With no present value at all,
`(max - min).days` is `NaN` (`pd.NaT` attributes), the `> 0` test is
false and the all-ones Series of the frame's `n` rows is returned, as
it is for a zero range. -/
def timeBonusAux (n : ℕ) (tss : List (Option ℚ)) : List (Option ℚ) :=
  match tss.filterMap id with
  | [] => List.replicate n (some 1)
  | v0 :: vr =>
    let mn := vr.foldl min v0
    let mx := vr.foldl max v0
    let range_days := tsDays (mx - mn)
    if 0 < range_days then tss.map (Option.map (tbMult mn range_days))
    else List.replicate n (some 1)

/-- `calculate_time_bonus` (analysis.py lines 162-172): when the frame
has an `enrollment_timestamp` column, convert it with `pd.to_datetime`
— a malformed text cell raises and the handler inside the function
returns the all-ones Series; a missing cell becomes `NaT` without
raising — then hand the converted column to `timeBonusAux`.  Without
the column, the all-ones Series. -/
def calculate_time_bonus (df : DF) : List (Option ℚ) :=
  if "enrollment_timestamp" ∈ df.cols then
    match df.rows.mapM parseTs with
    | .error _ => List.replicate df.rows.length (some 1)
    | .ok tss => timeBonusAux df.rows.length tss
  else List.replicate df.rows.length (some 1)

/-- Comparison used by `sort_values('Score global')` on the non-`NaN`
rows (the sort only ever compares rows whose score is present, so the
`getD` default is never the deciding value). -/
def scoreLE (a b : SRow) : Prop := a.score.getD 0 ≤ b.score.getD 0

instance : DecidableRel scoreLE :=
  fun a b => inferInstanceAs (Decidable (a.score.getD 0 ≤ b.score.getD 0))

/-- `metrics.sort_values('Score global', ascending=False)` (analysis.py
line 371).  pandas `nargsort` masks the `NaN` entries, implements the
descending sort of the rest by reversing the values, argsorting
ascending, and reversing the resulting indexer, and finally appends the
`NaN` rows in their original order (`na_position='last'`).  The
embedding mirrors that construction: reverse, ascending insertion sort,
reverse, then the `NaN`-score rows. -/
def sortValuesDescScore (l : List SRow) : List SRow :=
  (List.insertionSort scoreLE (l.filter fun r => r.score.isSome).reverse).reverse
    ++ l.filter fun r => r.score.isNone

/-- Round half to even (numpy/pandas `round`). -/
def roundHalfToEven (q : ℚ) : ℤ :=
  if q - ⌊q⌋ < 1 / 2 then ⌊q⌋
  else if 1 / 2 < q - ⌊q⌋ then ⌊q⌋ + 1
  else if 2 ∣ ⌊q⌋ then ⌊q⌋ else ⌊q⌋ + 1

/-- `Series.round(2)`: round to two decimal places, half to even. -/
def round2 (q : ℚ) : ℚ := (roundHalfToEven (q * 100) : ℚ) / 100

/-- One row of the table `analyze_contributors` returns: the metric
columns, the four point columns, `Score global` and `Rang`, every
numeric column rounded to two decimals (analysis.py lines 374-376). -/
structure OutRow where
  username : Option String
  total_edits : Option ℚ
  articles_created : Option ℚ
  articles_edited : Option ℚ
  bytes_added : Option ℚ
  references_added : Option ℚ
  upload_count : Option ℚ
  wikidata_edits : Option ℚ
  article_creation_points : ℚ
  wikidata_points : ℚ
  upload_points : ℚ
  commons_usage_points : ℚ
  score : Option ℚ
  rank : ℕ
deriving DecidableEq

/-- Round the numeric columns of a scored row and attach its rank. -/
def roundOut (r : SRow) (rank : ℕ) : OutRow :=
  { username := r.m.username
    total_edits := r.m.total_edits.map round2
    articles_created := r.m.articles_created.map round2
    articles_edited := r.m.articles_edited.map round2
    bytes_added := r.m.bytes_added.map round2
    references_added := r.m.references_added.map round2
    upload_count := r.m.upload_count.map round2
    wikidata_edits := r.m.wikidata_edits.map round2
    article_creation_points := round2 r.article_creation_points
    wikidata_points := round2 r.wikidata_points
    upload_points := round2 r.upload_points
    commons_usage_points := round2 r.commons_usage_points
    score := r.score.map round2
    rank := rank }

/-- `metrics['Rang'] = range(1, len(metrics) + 1)` on the sorted table,
followed by the rounding of the numeric columns (analysis.py lines
372-376). -/
def rankAndRound (sorted : List SRow) : List OutRow :=
  sorted.enum.map fun p => roundOut p.2 (p.1 + 1)

/-- The tail of `analyze_contributors` after adaptation (analysis.py
lines 336-385): ensure-required-columns (already folded into the
adapters), per-row points and score, optional time bonus (the Series
product `metrics['Score global'] *= time_bonus` aligns on the row
labels, i.e. multiplies positionally; a `NaN` multiplier makes the
row's score `NaN`), sort descending, rank, round. -/
def finishPipeline (df : DF) (include_time_bonus : Bool) (metrics : List MRow) : List OutRow :=
  let scored := metrics.map scoreRow
  let scored2 :=
    if include_time_bonus ∧ "enrollment_timestamp" ∈ df.cols then
      (scored.zip (calculate_time_bonus df)).map fun p =>
        { p.1 with score :=
            match p.1.score, p.2 with
            | some s, some m => some (s * m)
            | _, _ => none }
    else scored
  rankAndRound (sortValuesDescScore scored2)

/-- The data-type dispatch of `analyze_contributors` (analysis.py lines
324-334): the if/elif chain choosing the adapter; an unsupported data
type yields the empty metrics table (the source returns an empty frame
directly; the common tail maps the empty table to the same result). -/
def adaptData (df : DF) (data_type : String) : Except String (List MRow) :=
  if data_type = "editors" then .ok (process_editors_data df)
  else if data_type = "overview" then .ok (process_overview_data df)
  else if data_type = "commons" then .ok (process_commons_data df)
  else if data_type = "articles" then process_articles_data df
  else .ok []

/-- The body of `analyze_contributors` inside its `try` block
(analysis.py lines 318-385).  `.error` is a raised exception (caught by
the handler in `analyze_contributors`); the early returns for a missing
`username` column (non-`overview` data) and for an unsupported data
type are normal returns of an empty frame. -/
def analyze_core (df : DF) (data_type : String) (include_time_bonus : Bool) :
    Except String (List OutRow) :=
  if "username" ∉ df.cols ∧ data_type ≠ "overview" then .ok []
  else
    match adaptData df data_type with
    | .error e => .error e
    | .ok metrics => .ok (finishPipeline df include_time_bonus metrics)

/-- `analyze_contributors` (analysis.py lines 302-391).  The `weights`
parameter is part of the source signature; the body never reads it.
Any exception raised in the body is caught by the `except` handler,
which returns an empty frame. -/
def analyze_contributors (df : DF) (weights : Option (List (String × ℚ)))
    (data_type : String) (include_time_bonus : Bool) : List OutRow :=
  match analyze_core df data_type include_time_bonus, weights with
  | .ok t, _ => t
  | .error _, _ => []

/-- One row of the table the commons branch of `load_data` (app.py lines
60-98) hands back: the grouped upload log. -/
structure CommonsUpload where
  username : String
  upload_count : ℚ
  usage_count : ℚ
  upload_points : ℚ
  bytes_added : ℚ
  articles_created : ℚ
  articles_edited : ℚ
  references_added : ℚ
  wikidata_edits : ℚ
  total_edits : ℚ
deriving DecidableEq

/-- The commons branch of `load_data` (app.py lines 60-98): `None` (an
error message shown to the user) when `username` or `filename` is
missing; `groupby('username').agg({'filename': 'count', 'usage_count':
lambda x: x.fillna(0).sum()})` — which raises `KeyError` when the frame
has no `usage_count` column, the surrounding `except` then returning
`None`; otherwise the grouped table with `upload_points = 3 *
upload_count`, `articles_edited = usage_count`, `total_edits =
upload_count`, the remaining metrics `0`. -/
def load_data_commons (df : DF) : Option (List CommonsUpload) :=
  if ¬ ("username" ∈ df.cols ∧ "filename" ∈ df.cols) then none
  else if "usage_count" ∉ df.cols then none
  else
    some ((groupKeys (df.rows.map fun r => getStr r "username")).map fun u =>
      let grp := df.rows.filter fun r => getStr r "username" == u
      let uc : ℚ := grp.length
      let usage := sumCol grp "usage_count"
      { username := u
        upload_count := uc
        usage_count := usage
        upload_points := uc * 3
        bytes_added := 0
        articles_created := 0
        articles_edited := usage
        references_added := 0
        wikidata_edits := 0
        total_edits := uc })

/-- The article-creation tariff as the specification words it:
`0` when `articles_created = 0`; else with
`bytes_per_article = bytes_added / articles_created`,
`5.0 * articles_created` when `bytes_per_article ≥ 4000`,
`3.0 * articles_created` when `1500 ≤ bytes_per_article < 4000`,
`0` otherwise. -/
def article_points_spec (articles_created bytes_added : ℚ) : ℚ :=
  if articles_created = 0 then 0
  else
    let bytes_per_article := bytes_added / articles_created
    if bytes_per_article ≥ 4000 then 5 * articles_created
    else if 1500 ≤ bytes_per_article ∧ bytes_per_article < 4000 then 3 * articles_created
    else 0

/-- An `editors` table with one contributor who created 2 articles of
4500 bytes on average; used to show the `weights` argument has no
effect. -/
def dfWeights : DF :=
  ⟨["username", "total_articles_created", "mainspace_bytes_added"],
   [[("username", Val.str "A"), ("total_articles_created", Val.num 2),
     ("mainspace_bytes_added", Val.num 9000)]]⟩

/-- The commons-upload scenario of the specification: three upload-log
rows, two for user A and one for user B, with no `usage_count`
column. -/
def dfCommonsScenario : DF :=
  ⟨["username", "filename"],
   [[("username", Val.str "A"), ("filename", Val.str "x.jpg")],
    [("username", Val.str "A"), ("filename", Val.str "y.jpg")],
    [("username", Val.str "B"), ("filename", Val.str "z.jpg")]]⟩

/-- An `articles` table with a `username` column but none of the four
columns its `groupby(...).agg` dictionary requires: scoring raises
`KeyError`. -/
def dfArticlesMissing : DF := ⟨["username"], [[("username", Val.str "A")]]⟩

/-- A table without a `username` column. -/
def dfNoUsername : DF := ⟨["total_edits"], [[("total_edits", Val.num 5)]]⟩

/-- Another table without a `username` column. -/
def dfNoUsernameB : DF := ⟨["filename"], []⟩

/-- An `editors` table in which the same username appears on two rows. -/
def dfDupUsers : DF :=
  ⟨["username"], [[("username", Val.str "A")], [("username", Val.str "A")]]⟩

/-- An `articles` table with one row, carrying all four aggregated
columns. -/
def dfArticlesOne : DF :=
  ⟨["username", "edit_count", "characters_added", "references_added", "new"],
   [[("username", Val.str "A"), ("edit_count", Val.num 3),
     ("characters_added", Val.num 500), ("references_added", Val.num 2),
     ("new", Val.num 1)]]⟩

/-- The metrics row `process_articles_data` produces from
`dfArticlesOne`. -/
def mrowArticlesOne : MRow :=
  { username := some "A", total_edits := some 3, articles_created := some 1,
    articles_edited := some 0, bytes_added := some 500, references_added := some 2,
    upload_count := some 0, wikidata_edits := some 0 }

/-- A table with two enrollment timestamps two days (172800 seconds)
apart. -/
def dfTimestamps : DF :=
  ⟨["enrollment_timestamp"],
   [[("enrollment_timestamp", Val.num 0)], [("enrollment_timestamp", Val.num 172800)]]⟩

/-- A table whose middle enrollment timestamp is missing (`NaN`), while
the two valid timestamps span two days. -/
def dfTimestampsNaT : DF :=
  ⟨["enrollment_timestamp"],
   [[("enrollment_timestamp", Val.num 0)],
    [("enrollment_timestamp", Val.null)],
    [("enrollment_timestamp", Val.num 172800)]]⟩

/-- C1: on every canonical row (non-`NaN` cells) `calculate_article_points`
computes exactly the specified tariff, and on the three concrete examples
`articles_created = 2` with `bytes_added = 9000 / 3000 / 1000` it yields
`10.0 / 6.0 / 0.0`. -/
theorem C1_article_creation_tariff :
    (∀ ac b : ℚ, calculate_article_points (some ac) (some b) = article_points_spec ac b)
    ∧ calculate_article_points (some 2) (some 9000) = 10
    ∧ calculate_article_points (some 2) (some 3000) = 6
    ∧ calculate_article_points (some 2) (some 1000) = 0 := by
  refine ⟨?_, by norm_num [calculate_article_points], by norm_num [calculate_article_points],
    by norm_num [calculate_article_points]⟩
  intro ac b
  unfold calculate_article_points article_points_spec
  by_cases h0 : ac = 0
  · simp [h0]
  · simp only [h0, if_false]
    by_cases h4 : b / ac ≥ 4000
    · rw [if_pos h4, if_pos h4]
    · rw [if_neg h4, if_neg h4]
      by_cases h15 : b / ac ≥ 1500
      · rw [if_pos h15, if_pos ⟨h15, lt_of_not_ge h4⟩]
      · rw [if_neg h15, if_neg (fun hc => h15 hc.1)]

/-- C2: for every canonical row the point-tariff step computes
`wikidata_points = wikidata_edits * 3`, `upload_points = upload_count * 3`,
`commons_usage_points = articles_edited * 1`, and
`score = article_creation_points + wikidata_points + upload_points +
commons_usage_points`, a `NaN` operand counting as `0`. -/
theorem C2_point_tariff_sums (r : MRow) :
    (scoreRow r).article_creation_points
        = calculate_article_points r.articles_created r.bytes_added
      ∧ (scoreRow r).wikidata_points = (r.wikidata_edits.getD 0) * 3
      ∧ (scoreRow r).upload_points = (r.upload_count.getD 0) * 3
      ∧ (scoreRow r).commons_usage_points = (r.articles_edited.getD 0) * 1
      ∧ (scoreRow r).score
          = some ((scoreRow r).article_creation_points + (scoreRow r).wikidata_points
            + (scoreRow r).upload_points + (scoreRow r).commons_usage_points) := by
  refine ⟨rfl, rfl, rfl, ?_, rfl⟩
  simp [scoreRow]

/-- C4: the `weights` argument of `analyze_contributors` has no effect
on the result — the body never reads it, so there is no weighted mode.
On `dfWeights` the score is the fixed point tariff (`10.0`) even when a
weight of `0` is supplied for `articles_created`. -/
theorem C4_weights_have_no_effect :
    (∀ (df : DF) (w v : Option (List (String × ℚ))) (dt : String) (tb : Bool),
      analyze_contributors df w dt tb = analyze_contributors df v dt tb)
    ∧ (analyze_contributors dfWeights (some [("articles_created", 0)]) "editors" true).map
        (fun r => (r.username, r.score)) = [(some "A", some 10)] := by
  constructor
  · intro df w v dt tb
    cases h : analyze_core df dt tb <;> simp [analyze_contributors, h]
  · with_unfolding_all rfl

/-- C5: the commons-upload scenario of the specification.  Fed to
`load_data`, the scenario aborts with an error (`None`): the `agg`
dictionary demands a `usage_count` column the file does not have.  Fed
to the scoring engine directly, both users score `0.0`, not `6.0`/`3.0`:
`process_commons_data` counts uploads only when a `title` column exists
(the upload log has `filename`), and it does not group rows, so user A
also appears twice. -/
theorem C5_commons_scenario :
    load_data_commons dfCommonsScenario = none
    ∧ (analyze_contributors dfCommonsScenario none "commons" true).map
        (fun r => (r.username, r.score, r.rank))
      = [(some "A", some 0, 1), (some "A", some 0, 2), (some "B", some 0, 3)] := by
  constructor
  · with_unfolding_all rfl
  · with_unfolding_all rfl

/-- C6: whenever the body of `analyze_contributors` raises
(`analyze_core` returns an error), the caught exception is surfaced as
the empty table; the function itself always returns a table, never an
exception. -/
theorem C6_engine_never_raises (df : DF) (w : Option (List (String × ℚ)))
    (dt : String) (tb : Bool) (e : String)
    (h : analyze_core df dt tb = .error e) :
    analyze_contributors df w dt tb = [] := by
  simp [analyze_contributors, h]

/-- Witness for C6: an `articles` table without the aggregated columns
makes the body raise `KeyError`, and the engine returns the empty
table. -/
theorem C6_engine_never_raises_witness :
    analyze_core dfArticlesMissing "articles" true = .error "KeyError"
    ∧ analyze_contributors dfArticlesMissing none "articles" true = [] := by
  have h : analyze_core dfArticlesMissing "articles" true = .error "KeyError" := by
    with_unfolding_all rfl
  exact ⟨h, C6_engine_never_raises dfArticlesMissing none "articles" true "KeyError" h⟩

/-- Counterexample to C7: on a table with no `username` column (and no
alias), `analyze_contributors` with `data_type = "editors"` completes
normally with an empty table — the body returns `.ok []`, no
`SchemaError`-like exception is surfaced and the pipeline does not
abort. -/
theorem C7_counterexample_no_abort :
    analyze_core dfNoUsername "editors" true = .ok []
    ∧ (∀ e, analyze_core dfNoUsername "editors" true ≠ .error e)
    ∧ analyze_contributors dfNoUsername none "editors" true = [] := by
  have h : analyze_core dfNoUsername "editors" true = .ok [] := by
    with_unfolding_all rfl
  refine ⟨h, fun e he => ?_, by with_unfolding_all rfl⟩
  rw [h] at he
  cases he

/-- C7 amended: when the input lacks a `username` column and the data
type is not `overview`, the engine logs a warning and returns an empty
table, completing normally; no exception reaches the caller (the
`AnalysisError`-raising validators exist in the source but are never
invoked). -/
theorem C7_missing_username_empty (df : DF) (dt : String) (tb : Bool)
    (w : Option (List (String × ℚ)))
    (h1 : "username" ∉ df.cols) (h2 : dt ≠ "overview") :
    analyze_core df dt tb = .ok [] ∧ analyze_contributors df w dt tb = [] := by
  have hc : analyze_core df dt tb = .ok [] := by
    unfold analyze_core
    rw [if_pos ⟨h1, h2⟩]
  exact ⟨hc, by simp [analyze_contributors, hc]⟩

/-- Witness for the amended C7. -/
theorem C7_missing_username_empty_witness :
    "username" ∉ dfNoUsernameB.cols ∧ "commons" ≠ "overview"
    ∧ (analyze_core dfNoUsernameB "commons" true = .ok []
       ∧ analyze_contributors dfNoUsernameB none "commons" true = []) := by
  exact ⟨by decide, by decide,
    C7_missing_username_empty dfNoUsernameB "commons" true none (by decide) (by decide)⟩

/-- Counterexample to C9: an `editors` table in which username `A`
appears on two rows yields an output with two rows for `A` — the
engine does not deduplicate usernames for the `editors` data type, so
the output usernames are not unique. -/
theorem C9_counterexample_duplicates :
    (analyze_contributors dfDupUsers none "editors" true).map OutRow.username
      = [some "A", some "A"]
    ∧ ¬ ((analyze_contributors dfDupUsers none "editors" true).map OutRow.username).Nodup := by
  have h : (analyze_contributors dfDupUsers none "editors" true).map OutRow.username
      = [some "A", some "A"] := by
    with_unfolding_all rfl
  refine ⟨h, ?_⟩
  rw [h]
  decide

/-- The scoring tail of the pipeline maps the empty metrics table to the
empty result. -/
theorem finishPipeline_nil (df : DF) (tb : Bool) : finishPipeline df tb [] = [] := by
  unfold finishPipeline
  split <;> rfl

/-- `process_overview_data` of a zero-row frame has zero rows. -/
theorem process_overview_data_nil (cols : List String) :
    process_overview_data ⟨cols, []⟩ = [] := by
  unfold process_overview_data
  split <;> rfl

/-- `process_commons_data` of a zero-row frame has zero rows. -/
theorem process_commons_data_nil (cols : List String) :
    process_commons_data ⟨cols, []⟩ = [] := by
  unfold process_commons_data
  split <;> rfl

/-- `process_articles_data` of a zero-row frame is the empty frame, or
`KeyError` when the aggregated columns are missing. -/
theorem process_articles_data_nil (cols : List String) :
    process_articles_data ⟨cols, []⟩ = .ok []
    ∨ process_articles_data ⟨cols, []⟩ = .error "KeyError" := by
  unfold process_articles_data
  split
  · exact Or.inl rfl
  · split
    · exact Or.inr rfl
    · exact Or.inl rfl

/-- C10: an input table that has a `username` column but no data rows
produces a zero-row result without raising, for every data type and
configuration — the very table the failure policy of the engine also
returns, so a legitimately empty input is indistinguishable from a
scoring failure at the boundary of `analyze_contributors`. -/
theorem C10_empty_input_empty_output (cols : List String)
    (w : Option (List (String × ℚ))) (dt : String) (tb : Bool)
    (h : "username" ∈ cols) :
    analyze_contributors ⟨cols, []⟩ w dt tb = [] := by
  have hc : analyze_core ⟨cols, []⟩ dt tb = .ok []
      ∨ analyze_core ⟨cols, []⟩ dt tb = .error "KeyError" := by
    unfold analyze_core
    rw [if_neg (fun hcond => hcond.1 h)]
    by_cases h1 : dt = "editors"
    · left; simp [h1, adaptData, process_editors_data, finishPipeline_nil]
    · by_cases h2 : dt = "overview"
      · left; simp [h1, h2, adaptData, process_overview_data_nil, finishPipeline_nil]
      · by_cases h3 : dt = "commons"
        · left; simp [h1, h2, h3, adaptData, process_commons_data_nil, finishPipeline_nil]
        · by_cases h4 : dt = "articles"
          · rcases process_articles_data_nil cols with he | he
            · left; simp [h1, h2, h3, h4, adaptData, he, finishPipeline_nil]
            · right; simp [h1, h2, h3, h4, adaptData, he]
          · left; simp [h1, h2, h3, h4, adaptData, finishPipeline_nil]
  rcases hc with hc | hc <;> simp [analyze_contributors, hc]

/-- Witness for C10. -/
theorem C10_empty_input_empty_output_witness :
    "username" ∈ ["username"]
    ∧ analyze_contributors ⟨["username"], []⟩ none "editors" true = [] :=
  ⟨by decide, C10_empty_input_empty_output ["username"] none "editors" true (by decide)⟩

/-- `Series.min` (a fold of `min`) is below its initial value. -/
theorem foldl_min_le_init (l : List ℚ) : ∀ a : ℚ, l.foldl min a ≤ a := by
  induction l with
  | nil => intro a; exact le_refl a
  | cons b l ih => intro a; exact le_trans (ih (min a b)) (min_le_left a b)

/-- `Series.min` is below every member. -/
theorem foldl_min_le_mem (l : List ℚ) : ∀ (a t : ℚ), t ∈ l → l.foldl min a ≤ t := by
  induction l with
  | nil => intro a t ht; exact absurd ht (List.not_mem_nil t)
  | cons b l ih =>
    intro a t ht
    rcases List.mem_cons.mp ht with rfl | h
    · exact le_trans (foldl_min_le_init l (min a t)) (min_le_right a t)
    · exact ih (min a b) t h

/-- `Series.max` (a fold of `max`) is above its initial value. -/
theorem init_le_foldl_max (l : List ℚ) : ∀ a : ℚ, a ≤ l.foldl max a := by
  induction l with
  | nil => intro a; exact le_refl a
  | cons b l ih => intro a; exact le_trans (le_max_left a b) (ih (max a b))

/-- `Series.max` is above every member. -/
theorem mem_le_foldl_max (l : List ℚ) : ∀ (a t : ℚ), t ∈ l → t ≤ l.foldl max a := by
  induction l with
  | nil => intro a t ht; exact absurd ht (List.not_mem_nil t)
  | cons b l ih =>
    intro a t ht
    rcases List.mem_cons.mp ht with rfl | h
    · exact le_trans (le_max_right a t) (init_le_foldl_max l (max a t))
    · exact ih (max a b) t h

/-- The minimum of a non-empty timestamp Series bounds every entry. -/
theorem seriesMin_le (t0 : ℚ) (tr : List ℚ) : ∀ t ∈ t0 :: tr, tr.foldl min t0 ≤ t := by
  intro t ht
  rcases List.mem_cons.mp ht with rfl | h
  · exact foldl_min_le_init tr t
  · exact foldl_min_le_mem tr t0 t h

/-- The maximum of a non-empty timestamp Series bounds every entry. -/
theorem le_seriesMax (t0 : ℚ) (tr : List ℚ) : ∀ t ∈ t0 :: tr, t ≤ tr.foldl max t0 := by
  intro t ht
  rcases List.mem_cons.mp ht with rfl | h
  · exact init_le_foldl_max tr t
  · exact mem_le_foldl_max tr t0 t h

/-- Counterexample to C8: the middle enrollment timestamp of
`dfTimestampsNaT` is missing.  `pd.to_datetime` converts it to `NaT`
without raising; the two valid timestamps span two days, so the bonus
is computed, giving the valid rows multipliers `1.1` and `1.0` — and
the `NaT` row the multiplier `NaN` (so its score becomes `NaN`), not
the `1.0`-for-every-row the claim asserts when a timestamp does not
parse. -/
theorem C8_counterexample_nan_timestamp :
    calculate_time_bonus dfTimestampsNaT = [some (11 / 10), none, some 1]
    ∧ calculate_time_bonus dfTimestampsNaT
        ≠ List.replicate dfTimestampsNaT.rows.length (some 1) := by
  have h : calculate_time_bonus dfTimestampsNaT = [some (11 / 10), none, some 1] := by
    with_unfolding_all rfl
  refine ⟨h, ?_⟩
  rw [h]
  intro heq
  simp [List.replicate] at heq

/-- C8 amended: with the time bonus enabled and an
`enrollment_timestamp` column on which `pd.to_datetime` does not raise,
let `mn`/`mx` be the earliest/latest present timestamp and `R` the day
range `(mx - mn).days` (`NaT` entries are skipped).  When `R > 0` each
row's multiplier is `1 + 0.1 * (1 - (t - mn).days / R)` — `NaN` for a
`NaT` row — and every present multiplier lies in `[1, 1.1]`, the
earliest enrollee getting exactly `1.1` and the latest exactly `1.0`.
When `R = 0`, or when a malformed cell makes `pd.to_datetime` raise
(the error is caught inside the function), the multiplier is `1.0` for
every row. -/
theorem C8_time_bonus_multiplier :
    (∀ (df : DF) (tss : List (Option ℚ)) (v0 : ℚ) (vr : List ℚ) (mn mx : ℚ) (R : ℤ),
      "enrollment_timestamp" ∈ df.cols →
      df.rows.mapM parseTs = .ok tss →
      tss.filterMap id = v0 :: vr →
      mn = vr.foldl min v0 →
      mx = vr.foldl max v0 →
      R = tsDays (mx - mn) →
      ((0 < R →
          calculate_time_bonus df = tss.map (Option.map (tbMult mn R))
          ∧ (∀ t ∈ tss.filterMap id, 1 ≤ tbMult mn R t ∧ tbMult mn R t ≤ 11 / 10)
          ∧ tbMult mn R mn = 11 / 10
          ∧ tbMult mn R mx = 1)
        ∧ (R = 0 →
            calculate_time_bonus df = List.replicate df.rows.length (some 1))))
    ∧ (∀ (df : DF) (e : String), "enrollment_timestamp" ∈ df.cols →
        df.rows.mapM parseTs = .error e →
        calculate_time_bonus df = List.replicate df.rows.length (some 1)) := by
  constructor
  · intro df tss v0 vr mn mx R hcol hmap hfm hmn hmx hR
    subst hmn; subst hmx; subst hR
    have hbase : calculate_time_bonus df = timeBonusAux df.rows.length tss := by
      unfold calculate_time_bonus
      rw [if_pos hcol, hmap]
    constructor
    · intro hpos
      have hRQ : (0 : ℚ) < ((tsDays (vr.foldl max v0 - vr.foldl min v0) : ℤ) : ℚ) := by
        exact_mod_cast hpos
      refine ⟨?_, ?_, ?_, ?_⟩
      · rw [hbase]
        simp only [timeBonusAux, hfm]
        rw [if_pos hpos]
      · intro t ht
        rw [hfm] at ht
        have h1 : vr.foldl min v0 ≤ t := seriesMin_le v0 vr t ht
        have h2 : t ≤ vr.foldl max v0 := le_seriesMax v0 vr t ht
        have hd0 : 0 ≤ tsDays (t - vr.foldl min v0) := by
          unfold tsDays
          exact Int.floor_nonneg.mpr (div_nonneg (by linarith) (by norm_num))
        have hdR : tsDays (t - vr.foldl min v0)
            ≤ tsDays (vr.foldl max v0 - vr.foldl min v0) := by
          unfold tsDays
          exact Int.floor_le_floor ((div_le_div_iff_of_pos_right (by norm_num)).mpr (by linarith))
        have hx0 : 0 ≤ ((tsDays (t - vr.foldl min v0) : ℤ) : ℚ)
            / ((tsDays (vr.foldl max v0 - vr.foldl min v0) : ℤ) : ℚ) :=
          div_nonneg (by exact_mod_cast hd0) (le_of_lt hRQ)
        have hx1 : ((tsDays (t - vr.foldl min v0) : ℤ) : ℚ)
            / ((tsDays (vr.foldl max v0 - vr.foldl min v0) : ℤ) : ℚ) ≤ 1 :=
          (div_le_one hRQ).mpr (by exact_mod_cast hdR)
        unfold tbMult
        constructor <;> linarith
      · unfold tbMult
        have hz : tsDays (vr.foldl min v0 - vr.foldl min v0) = 0 := by
          simp [tsDays]
        rw [hz]
        norm_num
      · unfold tbMult
        rw [div_self (ne_of_gt hRQ)]
        norm_num
    · intro hzero
      rw [hbase]
      simp only [timeBonusAux, hfm]
      rw [hzero]
      norm_num
  · intro df e hcol hmap
    unfold calculate_time_bonus
    rw [if_pos hcol, hmap]

/-- Witness for the amended C8: two enrollees, two days (172800
seconds) apart. -/
theorem C8_time_bonus_multiplier_witness :
    "enrollment_timestamp" ∈ dfTimestamps.cols
    ∧ dfTimestamps.rows.mapM parseTs = .ok [some 0, some 172800]
    ∧ (0 : ℤ) < 2
    ∧ (calculate_time_bonus dfTimestamps
          = [some (0 : ℚ), some 172800].map (Option.map (tbMult 0 2))
       ∧ (∀ t ∈ [some (0 : ℚ), some 172800].filterMap id,
            1 ≤ tbMult 0 2 t ∧ tbMult 0 2 t ≤ 11 / 10)
       ∧ tbMult 0 2 0 = 11 / 10
       ∧ tbMult 0 2 172800 = 1) := by
  refine ⟨by decide, by with_unfolding_all rfl, by decide, ?_⟩
  exact (C8_time_bonus_multiplier.1 dfTimestamps [some 0, some 172800] 0 [172800] 0 172800 2
    (by decide) (by with_unfolding_all rfl) (by with_unfolding_all rfl)
    (by with_unfolding_all rfl) (by with_unfolding_all rfl) (by with_unfolding_all rfl)).1
    (by decide)

/-- The keys of a `groupby('username')` are distinct. -/
theorem groupKeys_nodup (us : List String) : (groupKeys us).Nodup := by
  unfold groupKeys
  exact (List.perm_insertionSort (fun a b : String => a ≤ b) us.dedup).symm.nodup
    (List.nodup_dedup us)

/-- C9 amended: for the `articles` data type the adapter groups by
username, so each username appears in at most one metrics row.  The
`editors` and `commons` adapters instead copy the username column row
for row, one output row per input row — duplicate usernames in the
input persist in the output. -/
theorem C9_username_multiplicity :
    (∀ (df : DF) (l : List MRow), process_articles_data df = .ok l →
      (l.map MRow.username).Nodup)
    ∧ (∀ df : DF, (process_editors_data df).map MRow.username
        = df.rows.map (fun r => some (getStr r "username")))
    ∧ (∀ df : DF, "username" ∈ df.cols →
        (process_commons_data df).map MRow.username
          = df.rows.map (fun r => some (getStr r "username"))) := by
  refine ⟨?_, ?_, ?_⟩
  · intro df l h
    unfold process_articles_data at h
    split at h
    · injection h with h
      rw [← h]
      simp
    · split at h
      · cases h
      · injection h with h
        rw [← h, List.map_map]
        apply List.Nodup.map ?_ (groupKeys_nodup _)
        intro u v huv
        simpa using huv
  · intro df
    unfold process_editors_data
    rw [List.map_map]
    rfl
  · intro df h
    unfold process_commons_data
    rw [if_pos h, List.map_map]
    rfl

/-- Witness for the amended C9: a one-row `articles` table groups to one
row with a unique username; the two-row duplicate `editors`-shaped table
run through the commons adapter keeps both rows. -/
theorem C9_username_multiplicity_witness :
    process_articles_data dfArticlesOne = .ok [mrowArticlesOne]
    ∧ ([mrowArticlesOne].map MRow.username).Nodup
    ∧ (process_commons_data dfDupUsers).map MRow.username
        = dfDupUsers.rows.map (fun r => some (getStr r "username")) := by
  have h : process_articles_data dfArticlesOne = .ok [mrowArticlesOne] := by
    with_unfolding_all rfl
  exact ⟨h, C9_username_multiplicity.1 dfArticlesOne [mrowArticlesOne] h,
    C9_username_multiplicity.2.2 dfDupUsers (by decide)⟩

end WikiJury
